import Mathlib

/-!
Verification development for the cnpj-analyzer repository.

The Python sources under scrutiny are shallowly embedded below:
pure helper functions become Lean functions, the regular-expression
searches of the `re` module are executed by a small backtracking
matcher (`RE`, `reSearch`) that reproduces Python's leftmost,
priority-first (greedy, backtracking) match semantics for the regex
constructs actually used by the program (literals, `\w`, `\d`, `\s`,
`.`, character classes, `*`, `+`, alternation, capture groups, `$`),
and exceptions are modelled with `Option`/`Except` result types.
Character classes `\w`, `\d`, `\s` are modelled over their ASCII
ranges, which coincides with Python on the ASCII inputs the theorems
use.  File-system interaction (directory walking and file reads) is
modelled by passing the would-be read results in as explicit data.
-/

namespace CnpjAnalyzer

/-- A regular expression over characters, covering the constructs used by
the analyzer's patterns.  `pred` is a single-character class; `eol` is
Python's `$` (end of input, or just before a trailing newline). -/
inductive RE where
  | eps : RE
  | pred : (Char → Bool) → RE
  | seq : RE → RE → RE
  | alt : RE → RE → RE
  | star : RE → RE
  | group : Nat → RE → RE
  | eol : RE

namespace RE

/-- Structural size of a regex, used only to compute a sufficient fuel
bound for the matcher. -/
def size : RE → Nat
  | .eps => 1
  | .pred _ => 1
  | .seq a b => size a + size b + 1
  | .alt a b => size a + size b + 1
  | .star a => size a + 1
  | .group _ a => size a + 1
  | .eol => 1

end RE

/-- A capture record: group index paired with the captured characters. -/
abbrev Caps := List (Nat × List Char)

/-- All ways a regex can match a prefix of the input, in Python's
backtracking priority order (first element is the match Python commits
to).  Each result is the remaining suffix paired with the captures made.
In `star`, an iteration must consume input (the bodies used here always
do), which keeps the recursion bounded by the fuel. -/
def reMatches : Nat → RE → List Char → List (List Char × Caps)
  | 0, _, _ => []
  | _ + 1, .eps, s => [(s, [])]
  | _ + 1, .pred _, [] => []
  | _ + 1, .pred p, c :: rest => if p c then [(rest, [])] else []
  | fuel + 1, .seq a b, s =>
      (reMatches fuel a s).flatMap (fun r =>
        (reMatches fuel b r.1).map (fun r2 => (r2.1, r.2 ++ r2.2)))
  | fuel + 1, .alt a b, s => reMatches fuel a s ++ reMatches fuel b s
  | fuel + 1, .star a, s =>
      ((reMatches fuel a s).flatMap (fun r =>
        if r.1.length < s.length then
          (reMatches fuel (.star a) r.1).map (fun r2 => (r2.1, r.2 ++ r2.2))
        else [])) ++ [(s, [])]
  | fuel + 1, .group n a, s =>
      (reMatches fuel a s).map (fun r =>
        (r.1, r.2 ++ [(n, s.take (s.length - r.1.length))]))
  | _ + 1, .eol, s =>
      match s with
      | [] => [(s, [])]
      | [c] => if c == '\n' then [(s, [])] else []
      | _ => []

/-- Fuel that safely covers the matcher's recursion depth for input
length `n`. -/
def reFuel (re : RE) (n : Nat) : Nat := (RE.size re + 2) * (n + 2)

/-- Try to match at the current position, else advance one character:
the leftmost-match rule of `re.search`. -/
def searchFrom (re : RE) (fuel : Nat) : List Char → Option Caps
  | [] => ((reMatches fuel re []).head?).map (fun r => r.2)
  | c :: rest =>
      match (reMatches fuel re (c :: rest)).head? with
      | some r => some r.2
      | none => searchFrom re fuel rest

/-- Python's `re.search`: captures of the leftmost match, if any. -/
def reSearch (re : RE) (s : String) : Option Caps :=
  searchFrom re (reFuel re (s.length + 1)) s.data

/-- Whether `re.search` finds a match. -/
def reTest (re : RE) (s : String) : Bool := (reSearch re s).isSome

/-- The string captured by group `i` of the leftmost match. -/
def reGroupStr (re : RE) (s : String) (i : Nat) : Option String :=
  (reSearch re s).bind (fun caps =>
    (caps.find? (fun c => c.1 == i)).map (fun c => String.mk c.2))

/-- Numeric value of a digit string (the `int(...)` applied to a `\d+`
capture). -/
def digitsToNat (l : List Char) : Nat :=
  l.foldl (fun acc c => acc * 10 + (c.toNat - 48)) 0

/-- Group `i` of a capture list, parsed as a number (defaults to 0;
the patterns below always capture at least one digit). -/
def capNat (caps : Caps) (i : Nat) : Nat :=
  match caps.find? (fun c => c.1 == i) with
  | some c => digitsToNat c.2
  | none => 0

/-- ASCII word character, Python's `\w` on ASCII input. -/
def isWordChar (c : Char) : Bool := c.isAlphanum || c == '_'

/-- Python's `\s` on ASCII input. -/
def isSpaceChar (c : Char) : Bool :=
  c == ' ' || c == '\t' || c == '\n' || c == '\r' || c == '\x0b' || c == '\x0c'

/-- Single literal character; `ci` selects case-insensitive comparison
(the `re.IGNORECASE` flag). -/
def litChar (ci : Bool) (c : Char) : RE :=
  RE.pred (fun d => if ci then d.toLower == c.toLower else d == c)

/-- Literal string regex. -/
def lit (ci : Bool) (s : String) : RE :=
  s.data.foldr (fun c acc => RE.seq (litChar ci c) acc) RE.eps

/-- `\w` -/
def wRE : RE := RE.pred isWordChar
/-- `\d` -/
def dRE : RE := RE.pred Char.isDigit
/-- `\s` -/
def sRE : RE := RE.pred isSpaceChar
/-- `.` (anything but a newline) -/
def dotRE : RE := RE.pred (fun c => c != '\n')
/-- `x+` -/
def rePlus (r : RE) : RE := RE.seq r (RE.star r)
/-- `['"]` -/
def quoteRE : RE := RE.pred (fun c => c == '\x27' || c == '"')
/-- `[^'"]` -/
def notQuoteRE : RE := RE.pred (fun c => c != '\x27' && c != '"')
/-- Chain a list of regexes in sequence. -/
def reCat (l : List RE) : RE := l.foldr RE.seq RE.eps

/-- Python's `a in b` substring test on char lists. -/
def listIsPrefixCh : List Char → List Char → Bool
  | [], _ => true
  | _ :: _, [] => false
  | a :: as, b :: bs => a == b && listIsPrefixCh as bs

/-- Substring containment, scanning positions left to right. -/
def listContainsSub (needle : List Char) : List Char → Bool
  | [] => listIsPrefixCh needle []
  | c :: rest => listIsPrefixCh needle (c :: rest) || listContainsSub needle rest

/-- Python's `needle in hay` for strings. -/
def strContains (hay needle : String) : Bool := listContainsSub needle.data hay.data

/-- Split on a separator character, Python's `content.split('\n')`
(an empty string yields one empty piece). -/
def splitChar (sep : Char) : List Char → List (List Char)
  | [] => [[]]
  | x :: xs =>
      if x == sep then [] :: splitChar sep xs
      else
        match splitChar sep xs with
        | [] => [[x]]
        | h :: t => (x :: h) :: t

/-- `content.split('\n')` as a list of lines. -/
def pySplitLines (s : String) : List String :=
  (splitChar '\n' s.data).map String.mk

/-- Python's `str.lower()` (ASCII case mapping). -/
def strToLower (s : String) : String := String.mk (s.data.map Char.toLower)

/-- Python's `str.endswith(suffix)`. -/
def strEndsWith (hay suf : String) : Bool :=
  listIsPrefixCh suf.data.reverse hay.data.reverse

/-- Python's `str.startswith(prefix)`. -/
def strStartsWith (hay pre : String) : Bool :=
  listIsPrefixCh pre.data hay.data

/-! ## `src/analyzers/base_analyzer.py` -/

/-- The `ImpactLevel` enum (base_analyzer.py lines 17-22).  Its only
members are LOW, MEDIUM, HIGH and CRITICAL. -/
inductive ImpactLevel where
  | LOW | MEDIUM | HIGH | CRITICAL
deriving DecidableEq, Repr

/-- The `.value` string of each `ImpactLevel` member. -/
def ImpactLevel.value : ImpactLevel → String
  | .LOW => "baixo"
  | .MEDIUM => "medio"
  | .HIGH => "alto"
  | .CRITICAL => "critico"

/-- Attribute lookup on the `ImpactLevel` enum class: `none` models the
`AttributeError` Python raises for a name that is not a member. -/
def ImpactLevel.fromName : String → Option ImpactLevel
  | "LOW" => some .LOW
  | "MEDIUM" => some .MEDIUM
  | "HIGH" => some .HIGH
  | "CRITICAL" => some .CRITICAL
  | _ => none

/-- The `Status` enum (base_analyzer.py lines 24-29). -/
inductive Status where
  | COMPATIBLE | ATTENTION | INCOMPATIBLE | NEEDS_ANALYSIS
deriving DecidableEq, Repr

/-- The `CNPJField` dataclass (base_analyzer.py lines 31-44). -/
structure CNPJField where
  file_path : String
  line_number : Nat
  field_name : String
  field_type : String
  field_size : Option Nat
  context : String
  project_type : String
  impact_level : ImpactLevel
  status : Status
  action_needed : String
  estimated_effort : String
deriving DecidableEq, Repr

/-- `cnpj_patterns['field_names']` (base_analyzer.py lines 56-74): every
entry is a literal pattern, searched case-insensitively. -/
def field_names_patterns : List String :=
  ["cnpj", "cpf_cnpj", "cpfcnpj", "nr_documento", "documento",
   "numero_documento", "cnpj_cpf", "documento_fiscal", "cpfcnpjpagador",
   "cpf_cnpj_base", "cnpj_base", "cpfcnpj_indicador", "cpfcnpj_indicado",
   "cpf_cnpj_indicador", "cpf_cnpj_indicado", "CpfCnpj", "CpfCnpjValidator"]

/-- The field-name capture patterns of `_analyze_cnpj_field`
(base_analyzer.py lines 175-183), in their priority order:
`(\w+cnpj\w*)`, `(\w+documento\w*)`, `(\w+_cnpj\w*)`, `(\w+_cpf_cnpj\w*)`,
`(\w+cpfcnpj\w*)`, `(CpfCnpj\w*)`, `(CpfCnpjValidator)`, all IGNORECASE. -/
def field_patterns : List RE :=
  [RE.group 1 (reCat [rePlus wRE, lit true "cnpj", RE.star wRE]),
   RE.group 1 (reCat [rePlus wRE, lit true "documento", RE.star wRE]),
   RE.group 1 (reCat [rePlus wRE, lit true "_cnpj", RE.star wRE]),
   RE.group 1 (reCat [rePlus wRE, lit true "_cpf_cnpj", RE.star wRE]),
   RE.group 1 (reCat [rePlus wRE, lit true "cpfcnpj", RE.star wRE]),
   RE.group 1 (reCat [lit true "CpfCnpj", RE.star wRE]),
   RE.group 1 (lit true "CpfCnpjValidator")]

/-- `TYPE\s*\(\s*(\d+)\s*\)` with IGNORECASE, for a given type name. -/
def sizedTypeRE (name : String) : RE :=
  reCat [lit true name, RE.star sRE, litChar false '(', RE.star sRE,
         RE.group 1 (rePlus dRE), RE.star sRE, litChar false ')']

/-- `'NAME'.*'length'.*=>\s*(\d+)` with IGNORECASE (Phinx patterns of
`_extract_field_type_and_size`). -/
def phinxSizedRE (name : String) : RE :=
  reCat [litChar false '\x27', lit true name, litChar false '\x27',
         RE.star dotRE, lit true "\x27length\x27", RE.star dotRE,
         lit false "=>", RE.star sRE, RE.group 1 (rePlus dRE)]

/-- `'NAME'` with IGNORECASE. -/
def phinxPlainRE (name : String) : RE :=
  reCat [litChar false '\x27', lit true name, litChar false '\x27']

/-- `\$table->NAME\s*\(\s*['"][^'"]+['"]\s*,\s*(\d+)\s*\)` with
IGNORECASE (Laravel sized pattern of `_extract_field_type_and_size`). -/
def laravelSizedRE (name : String) : RE :=
  reCat [litChar false '$', lit true "table->", lit true name, RE.star sRE,
         litChar false '(', RE.star sRE, quoteRE, rePlus notQuoteRE, quoteRE,
         RE.star sRE, litChar false ',', RE.star sRE,
         RE.group 1 (rePlus dRE), RE.star sRE, litChar false ')']

/-- `\$table->NAME\s*\(\s*['"][^'"]+['"]\s*\)` with IGNORECASE. -/
def laravelPlainRE (name : String) : RE :=
  reCat [litChar false '$', lit true "table->", lit true name, RE.star sRE,
         litChar false '(', RE.star sRE, quoteRE, rePlus notQuoteRE, quoteRE,
         RE.star sRE, litChar false ')']

/-- `INT|BIGINT` with IGNORECASE. -/
def intOrBigintRE : RE := RE.alt (lit true "INT") (lit true "BIGINT")

/-- `_extract_field_type_and_size` (base_analyzer.py lines 215-263):
SQL patterns first, then Phinx, then Laravel, else `('UNKNOWN', None)`. -/
def extract_field_type_and_size (line : String) : String × Option Nat :=
  if h1 : (reSearch (sizedTypeRE "VARCHAR") line).isSome then
    ("VARCHAR", some (capNat ((reSearch (sizedTypeRE "VARCHAR") line).get h1) 1))
  else if h2 : (reSearch (sizedTypeRE "CHAR") line).isSome then
    ("CHAR", some (capNat ((reSearch (sizedTypeRE "CHAR") line).get h2) 1))
  else if reTest (lit true "TEXT") line then
    ("TEXT", none)
  else if reTest intOrBigintRE line then
    ("INTEGER", none)
  else if h5 : (reSearch (phinxSizedRE "string") line).isSome then
    ("VARCHAR", some (capNat ((reSearch (phinxSizedRE "string") line).get h5) 1))
  else if h6 : (reSearch (phinxSizedRE "char") line).isSome then
    ("CHAR", some (capNat ((reSearch (phinxSizedRE "char") line).get h6) 1))
  else if reTest (phinxPlainRE "text") line then
    ("TEXT", none)
  else if reTest (phinxPlainRE "integer") line then
    ("INTEGER", none)
  else if h9 : (reSearch (laravelSizedRE "string") line).isSome then
    ("VARCHAR", some (capNat ((reSearch (laravelSizedRE "string") line).get h9) 1))
  else if reTest (laravelPlainRE "integer") line then
    ("INTEGER", none)
  else if reTest (laravelPlainRE "text") line then
    ("TEXT", none)
  else
    ("UNKNOWN", none)

/-- Python truthiness of `field_size and field_size < k`: `None` and `0`
are falsy. -/
def sizeLt (sz : Option Nat) (k : Nat) : Bool :=
  match sz with
  | some n => n != 0 && n < k
  | none => false

/-- Python truthiness of `field_size and field_size >= k`. -/
def sizeGe (sz : Option Nat) (k : Nat) : Bool :=
  match sz with
  | some n => n != 0 && k ≤ n
  | none => false

/-- `_assess_impact` (base_analyzer.py lines 265-292): the impact
classifier, a pure function of `(field_type, field_size)`. -/
def assess_impact (field_type : String) (field_size : Option Nat) :
    ImpactLevel × Status × String :=
  if field_type = "INTEGER" then
    (.HIGH, .INCOMPATIBLE, "Alterar tipo para VARCHAR(18)")
  else if field_type = "VARCHAR" then
    if sizeLt field_size 14 then
      (.CRITICAL, .INCOMPATIBLE,
       "CRÍTICO: Tamanho " ++ toString (field_size.getD 0) ++
       " < 14. Alterar para VARCHAR(18)")
    else if sizeLt field_size 18 then
      (.MEDIUM, .ATTENTION,
       "Aumentar tamanho de " ++ toString (field_size.getD 0) ++ " para 18")
    else if sizeGe field_size 18 then
      (.LOW, .COMPATIBLE, "Nenhuma alteração necessária")
    else
      (.MEDIUM, .NEEDS_ANALYSIS, "Análise manual necessária")
  else if field_type = "CHAR" then
    if sizeLt field_size 14 then
      (.CRITICAL, .INCOMPATIBLE,
       "CRÍTICO: Tamanho " ++ toString (field_size.getD 0) ++
       " < 14. Alterar para VARCHAR(18)")
    else if sizeLt field_size 18 then
      (.MEDIUM, .ATTENTION,
       "Alterar para VARCHAR(18) ou aumentar CHAR para 18")
    else
      (.LOW, .COMPATIBLE, "Nenhuma alteração necessária")
  else if field_type = "TEXT" then
    (.LOW, .COMPATIBLE, "Nenhuma alteração necessária")
  else
    (.MEDIUM, .NEEDS_ANALYSIS, "Análise manual necessária")

/-- `_estimate_effort` (base_analyzer.py lines 294-302): the
`effort_map` covers every member, so the `.get` default is unreachable. -/
def estimate_effort : ImpactLevel → String
  | .LOW => "1-2 horas"
  | .MEDIUM => "4-8 horas"
  | .HIGH => "1-2 dias"
  | .CRITICAL => "2-5 dias"

/-- Python's `str.strip()` (both-ends whitespace trim). -/
def pyStrip (s : String) : String :=
  String.mk (((s.data.dropWhile isSpaceChar).reverse.dropWhile isSpaceChar).reverse)

/-- `_analyze_cnpj_field` (base_analyzer.py lines 172-213): try the
capture patterns in order; with no extractable name return `None`
(no Finding), else classify and build the `CNPJField`. -/
def analyze_cnpj_field (project_type file_path : String) (line_num : Nat)
    (line : String) : Option CNPJField :=
  match field_patterns.findSome? (fun pat => reGroupStr pat line 1) with
  | none => none
  | some field_name =>
      let ts := extract_field_type_and_size line
      let ia := assess_impact ts.1 ts.2
      some { file_path := file_path
             line_number := line_num
             field_name := field_name
             field_type := ts.1
             field_size := ts.2
             context := pyStrip line
             project_type := project_type
             impact_level := ia.1
             status := ia.2.1
             action_needed := ia.2.2
             estimated_effort := estimate_effort ia.1 }

/-- One scanned file: path, decoded content and the matched extension,
as collected by `scan_files`. -/
structure ScannedFile where
  path : String
  content : String
  ext : String
deriving DecidableEq, Repr

/-- The findings one line contributes in `find_cnpj_fields`
(base_analyzer.py lines 161-168): one `_analyze_cnpj_field` call per
matching field-name pattern (the loop does not break after a hit). -/
def lineFindings (project_type file_path : String) (line_num : Nat)
    (line : String) : List CNPJField :=
  field_names_patterns.flatMap (fun pat =>
    if reTest (lit true pat) line then
      match analyze_cnpj_field project_type file_path line_num line with
      | some f => [f]
      | none => []
    else [])

/-- The per-line loop of `find_cnpj_fields` with its 1-based
`enumerate`. -/
def scanLines (project_type file_path : String) :
    Nat → List String → List CNPJField
  | _, [] => []
  | n, line :: rest =>
      lineFindings project_type file_path n line ++
      scanLines project_type file_path (n + 1) rest

/-- `find_cnpj_fields` (base_analyzer.py lines 152-170). -/
def find_cnpj_fields (project_type : String) (files : List ScannedFile) :
    List CNPJField :=
  files.flatMap (fun f =>
    scanLines project_type f.path 1 (pySplitLines f.content))

/-- A validation or mask hit dict (base_analyzer.py lines 316-321 and
337-342): file path, 1-based line number, stripped line, and the
`validation_type`/`mask_type` value. -/
structure LineHit where
  file_path : String
  line_number : Nat
  line : String
  tag : String
deriving DecidableEq, Repr

/-- `cnpj_patterns['validation_patterns']` (base_analyzer.py lines
75-86), compiled: `.*` is `RE.star dotRE`, all IGNORECASE. -/
def validation_patterns : List RE :=
  [reCat [lit true "cnpj", RE.star dotRE, lit true "validat"],
   reCat [lit true "validat", RE.star dotRE, lit true "cnpj"],
   reCat [lit true "cpf", RE.star dotRE, lit true "cnpj", RE.star dotRE, lit true "validat"],
   reCat [lit true "documento", RE.star dotRE, lit true "validat"],
   lit true "CpfCnpjValidator",
   reCat [lit true "cpfcnpj", RE.star dotRE, lit true "validat"],
   reCat [lit true "validat", RE.star dotRE, lit true "cpfcnpj"],
   lit true "Rule::cnpj",
   reCat [lit true "cnpj", RE.star dotRE, lit true "rule"],
   reCat [lit true "rule", RE.star dotRE, lit true "cnpj"]]

/-- `cnpj_patterns['mask_patterns']` (base_analyzer.py lines 87-92). -/
def mask_patterns : List RE :=
  [reCat [lit true "cnpj", RE.star dotRE, lit true "mask"],
   reCat [lit true "mask", RE.star dotRE, lit true "cnpj"],
   reCat [lit true "format", RE.star dotRE, lit true "cnpj"],
   reCat [lit true "cnpj", RE.star dotRE, lit true "format"]]

/-- Per-line pattern loop shared by `find_validations` and
`find_frontend_masks`: one hit appended per matching pattern. -/
def hitScanLines (pats : List RE) (tag file_path : String) :
    Nat → List String → List LineHit
  | _, [] => []
  | n, line :: rest =>
      pats.flatMap (fun pat =>
        if reTest pat line then
          [{ file_path := file_path, line_number := n,
             line := pyStrip line, tag := tag }]
        else []) ++
      hitScanLines pats tag file_path (n + 1) rest

/-- `find_validations` (base_analyzer.py lines 304-323). -/
def find_validations (files : List ScannedFile) : List LineHit :=
  files.flatMap (fun f =>
    hitScanLines validation_patterns "CNPJ" f.path 1 (pySplitLines f.content))

/-- `find_frontend_masks` (base_analyzer.py lines 325-344). -/
def find_frontend_masks (files : List ScannedFile) : List LineHit :=
  files.flatMap (fun f =>
    hitScanLines mask_patterns "CNPJ" f.path 1 (pySplitLines f.content))

/-- One candidate file discovered by `project_path.rglob`: its path and
the outcome `file_path.read_text` would have (`.error` models an OS-level
read failure; decode errors never raise, `errors='ignore'`). -/
structure FSFile where
  path : String
  read : Except Unit String
deriving Repr

/-- `scan_files` (base_analyzer.py lines 112-142): for each supported
extension, each matching file not skipped (and passing the include
filter when one is given) is read; a file whose read raises is logged
and NOT appended to the result. -/
def scan_files (fs : List FSFile)
    (extensions skip_patterns include_patterns : List String) :
    List ScannedFile :=
  extensions.flatMap (fun ext =>
    fs.filterMap (fun f =>
      if strEndsWith f.path ext &&
         ! skip_patterns.any (fun p => strContains f.path p) then
        if include_patterns != [] &&
           ! include_patterns.any (fun p => strContains f.path p) then
          none
        else
          match f.read with
          | .ok c => some { path := f.path, content := c, ext := ext }
          | .error _ => none
      else none))

/-- The extension list and skip-pattern list a concrete analyzer
supplies to `scan_files`, plus its project-type tag. -/
structure AnalyzerConfig where
  project_type : String
  extensions : List String
  skip_patterns : List String

/-- The dict returned by `BaseAnalyzer.analyze_project`
(base_analyzer.py lines 346-370): `total_files_scanned` is
`len(files)`, the length of `scan_files`' result. -/
structure BaseResult where
  project_type : String
  total_files_scanned : Nat
  cnpj_fields_found : List CNPJField
  validations : List LineHit
  frontend_masks : List LineHit
  files : List ScannedFile
deriving DecidableEq, Repr

/-- `BaseAnalyzer.analyze_project` (base_analyzer.py lines 346-370);
`filters` is modelled by its two component lists (extra skip patterns
and include patterns). -/
def base_analyze_project (cfg : AnalyzerConfig) (fs : List FSFile)
    (filter_skip filter_include : List String) : BaseResult :=
  let files := scan_files fs cfg.extensions
      (cfg.skip_patterns ++ filter_skip) filter_include
  { project_type := cfg.project_type
    total_files_scanned := files.length
    cnpj_fields_found := find_cnpj_fields cfg.project_type files
    validations := find_validations files
    frontend_masks := find_frontend_masks files
    files := files }

/-! ## `src/analyzer_factory.py` -/

/-- What a factory entry constructs: the analyzer class name and the
constructor argument (empty when the constructor takes none). -/
abbrev FactorySpec := String × String

/-- The `self.analyzers` registry of `AnalyzerFactory.__init__`
(analyzer_factory.py lines 22-50). -/
def analyzers_registry : List (String × FactorySpec) :=
  [("php_laravel", ("PHPAnalyzer", "laravel")),
   ("php_symfony", ("PHPAnalyzer", "symfony")),
   ("php_hyperf", ("PHPAnalyzer", "hyperf")),
   ("php_generic", ("PHPAnalyzer", "php")),
   ("ui_react", ("UIAnalyzer", "react")),
   ("ui_react_native", ("UIAnalyzer", "react_native")),
   ("ui_vue", ("UIAnalyzer", "vue")),
   ("ui_angular", ("UIAnalyzer", "angular")),
   ("ui_generic", ("UIAnalyzer", "ui")),
   ("nest_bff", ("NestAnalyzer", "")),
   ("nest_generic", ("NestAnalyzer", "")),
   ("etl_pentaho", ("ETLAnalyzer", "")),
   ("etl_sql", ("ETLAnalyzer", "")),
   ("etl_python_pandas", ("ETLAnalyzer", "")),
   ("etl_python_spark", ("ETLAnalyzer", "")),
   ("etl_python_airflow", ("ETLAnalyzer", "")),
   ("etl_r", ("ETLAnalyzer", "")),
   ("etl_scala_java", ("ETLAnalyzer", "")),
   ("etl_generic", ("ETLAnalyzer", ""))]

/-- `AnalyzerFactory.create_analyzer` (analyzer_factory.py lines
52-67): a registry lookup, then a prefix-based fallback, then the
generic PHP analyzer; it is total and never raises. -/
def create_analyzer (project_type : String) : FactorySpec :=
  match analyzers_registry.lookup project_type with
  | some spec => spec
  | none =>
      if strStartsWith project_type "php" then ("PHPAnalyzer", "php")
      else if strStartsWith project_type "ui" then ("UIAnalyzer", "ui")
      else if strStartsWith project_type "nest" then ("NestAnalyzer", "")
      else if strStartsWith project_type "etl" then ("ETLAnalyzer", "")
      else ("PHPAnalyzer", "php")

/-! ## `src/analyzers/php_analyzer.py` -/

/-- The `PHPFieldDefinition` dataclass (php_analyzer.py lines 16-25). -/
structure PHPFieldDefinition where
  file_path : String
  line_number : Nat
  field_name : String
  field_type : String
  field_size : Option Nat
  context : String
  category : String
deriving DecidableEq, Repr

/-- `PHPMigrationAnalyzer._is_index_reference` (php_analyzer.py lines
91-105); the five patterns are case-sensitive. -/
def is_index_reference (line : String) : Bool :=
  [reCat [lit false "addIndex", RE.star sRE, litChar false '('],
   reCat [lit false "addUnique", RE.star sRE, litChar false '('],
   reCat [lit false "addForeignKey", RE.star sRE, litChar false '('],
   reCat [lit false "index", RE.star sRE, litChar false '('],
   reCat [lit false "unique", RE.star sRE, litChar false '(']].any
    (fun pat => reTest pat line)

/-- `_is_cnpj_field` (php_analyzer.py lines 107-120 and 186-199): every
pattern is a literal searched case-sensitively against the lowercased
name (so the `cpfCnpj` entry can never match). -/
def is_cnpj_field (field_name : String) : Bool :=
  ["cnpj", "cpf_cnpj", "cpfcnpj", "cpfCnpj", "cpfcnpj", "cnpj_cpf",
   "cnpjcpf"].any (fun p => strContains (strToLower field_name) p)

/-- `PHPMigrationAnalyzer._extract_field_size` (php_analyzer.py lines
122-134): `'length'\s*=>\s*(\d+)` first, then `,\s*(\d+)`, both
case-sensitive. -/
def extract_field_size (options : String) : Option Nat :=
  let lengthRE := reCat [lit false "\x27length\x27", RE.star sRE,
                         lit false "=>", RE.star sRE, RE.group 1 (rePlus dRE)]
  match reSearch lengthRE options with
  | some caps => some (capNat caps 1)
  | none =>
      let commaRE := reCat [litChar false ',', RE.star sRE,
                            RE.group 1 (rePlus dRE)]
      match reSearch commaRE options with
      | some caps => some (capNat caps 1)
      | none => none

/-- The Phinx `field_definition` pattern
`\$table->addColumn\s*\(\s*['"]([^'"]+)['"]\s*,\s*['"]([^'"]+)['"]([^)]*)\)`
(php_analyzer.py line 34), case-sensitive. -/
def phinxFieldDefRE : RE :=
  reCat [litChar false '$', lit false "table->addColumn", RE.star sRE,
         litChar false '(', RE.star sRE,
         quoteRE, RE.group 1 (rePlus notQuoteRE), quoteRE,
         RE.star sRE, litChar false ',', RE.star sRE,
         quoteRE, RE.group 2 (rePlus notQuoteRE), quoteRE,
         RE.group 3 (RE.star (RE.pred (fun c => c != ')'))),
         litChar false ')']

/-- The `laravel_field` pattern
`\$table->(\w+)\s*\(\s*['"]([^'"]+)['"]([^)]*)\)` (php_analyzer.py
line 35), case-sensitive. -/
def laravelFieldRE : RE :=
  reCat [litChar false '$', lit false "table->", RE.group 1 (rePlus wRE),
         RE.star sRE, litChar false '(', RE.star sRE,
         quoteRE, RE.group 2 (rePlus notQuoteRE), quoteRE,
         RE.group 3 (RE.star (RE.pred (fun c => c != ')'))),
         litChar false ')']

/-- The body of `analyze_migration_file`'s line loop (php_analyzer.py
lines 45-87): index-reference lines are skipped; a Phinx match ends the
line's processing even when the field is not CNPJ-related; otherwise the
Laravel pattern is tried. -/
def migrationLineFields (file_path : String) (line_num : Nat)
    (line : String) : List PHPFieldDefinition :=
  if is_index_reference line then []
  else
    match reSearch phinxFieldDefRE line with
    | some caps =>
        let field_name := String.mk ((caps.find? (fun c => c.1 == 1)).map
          Prod.snd |>.getD [])
        let field_type := String.mk ((caps.find? (fun c => c.1 == 2)).map
          Prod.snd |>.getD [])
        let options := String.mk ((caps.find? (fun c => c.1 == 3)).map
          Prod.snd |>.getD [])
        if is_cnpj_field field_name then
          [{ file_path := file_path, line_number := line_num,
             field_name := field_name, field_type := field_type,
             field_size := extract_field_size options,
             context := pyStrip line, category := "migration" }]
        else []
    | none =>
        match reSearch laravelFieldRE line with
        | some caps =>
            let method := String.mk ((caps.find? (fun c => c.1 == 1)).map
              Prod.snd |>.getD [])
            let field_name := String.mk ((caps.find? (fun c => c.1 == 2)).map
              Prod.snd |>.getD [])
            let options := String.mk ((caps.find? (fun c => c.1 == 3)).map
              Prod.snd |>.getD [])
            if is_cnpj_field field_name then
              [{ file_path := file_path, line_number := line_num,
                 field_name := field_name, field_type := method,
                 field_size := extract_field_size options,
                 context := pyStrip line, category := "migration" }]
            else []
        | none => []

/-- Line loop of `PHPMigrationAnalyzer.analyze_migration_file`
(php_analyzer.py lines 40-89). -/
def migrationScan (file_path : String) : Nat → List String →
    List PHPFieldDefinition
  | _, [] => []
  | n, line :: rest =>
      migrationLineFields file_path n line ++
      migrationScan file_path (n + 1) rest

/-- `PHPMigrationAnalyzer.analyze_migration_file`. -/
def analyze_migration_file (file_path content : String) :
    List PHPFieldDefinition :=
  migrationScan file_path 1 (pySplitLines content)

/-- The `property` pattern `(?:public|private|protected)\s+\$(\w+)`
(php_analyzer.py line 142), case-sensitive. -/
def phpPropertyRE : RE :=
  reCat [RE.alt (lit false "public") (RE.alt (lit false "private")
           (lit false "protected")),
         rePlus sRE, litChar false '$', RE.group 1 (rePlus wRE)]

/-- The `variable` pattern `\$(\w+)\s*=` (php_analyzer.py line 143). -/
def phpVariableRE : RE :=
  reCat [litChar false '$', RE.group 1 (rePlus wRE), RE.star sRE,
         litChar false '=']

/-- The body of `analyze_code_file`'s line loop (php_analyzer.py lines
152-182): a property match ends the line even when not CNPJ-related;
otherwise the variable pattern is tried. -/
def codeLineFields (file_path : String) (line_num : Nat) (line : String) :
    List PHPFieldDefinition :=
  match reGroupStr phpPropertyRE line 1 with
  | some field_name =>
      if is_cnpj_field field_name then
        [{ file_path := file_path, line_number := line_num,
           field_name := field_name, field_type := "PROPERTY",
           field_size := none, context := pyStrip line,
           category := "code" }]
      else []
  | none =>
      match reGroupStr phpVariableRE line 1 with
      | some field_name =>
          if is_cnpj_field field_name then
            [{ file_path := file_path, line_number := line_num,
               field_name := field_name, field_type := "VARIABLE",
               field_size := none, context := pyStrip line,
               category := "code" }]
          else []
      | none => []

/-- Line loop of `PHPCodeAnalyzer.analyze_code_file` (php_analyzer.py
lines 147-184). -/
def codeScan (file_path : String) : Nat → List String →
    List PHPFieldDefinition
  | _, [] => []
  | n, line :: rest =>
      codeLineFields file_path n line ++ codeScan file_path (n + 1) rest

/-- `PHPCodeAnalyzer.analyze_code_file`. -/
def analyze_code_file (file_path content : String) :
    List PHPFieldDefinition :=
  codeScan file_path 1 (pySplitLines content)

/-- The validation `rule` pattern `['"]([^'"]*cnpj[^'"]*)['"]`
(php_analyzer.py line 207), searched with IGNORECASE. -/
def phpRuleRE : RE :=
  reCat [quoteRE,
         RE.group 1 (reCat [RE.star notQuoteRE, lit true "cnpj",
                            RE.star notQuoteRE]),
         quoteRE]

/-- The `validator` pattern `CNPJ|Cnpj` (php_analyzer.py line 208),
searched case-sensitively (no flag at line 234). -/
def phpValidatorRE : RE := RE.alt (lit false "CNPJ") (lit false "Cnpj")

/-- The body of `analyze_validation_file`'s line loop (php_analyzer.py
lines 217-244): a rule match ends the line; otherwise the validator
pattern is tried. -/
def validationLineFields (file_path : String) (line_num : Nat)
    (line : String) : List PHPFieldDefinition :=
  if reTest phpRuleRE line then
    [{ file_path := file_path, line_number := line_num,
       field_name := "validation_rule_" ++ toString line_num,
       field_type := "VALIDATION_RULE", field_size := none,
       context := pyStrip line, category := "validation" }]
  else if reTest phpValidatorRE line then
    [{ file_path := file_path, line_number := line_num,
       field_name := "validator_" ++ toString line_num,
       field_type := "VALIDATOR", field_size := none,
       context := pyStrip line, category := "validation" }]
  else []

/-- Line loop of `PHPValidationAnalyzer.analyze_validation_file`
(php_analyzer.py lines 212-246). -/
def validationScan (file_path : String) : Nat → List String →
    List PHPFieldDefinition
  | _, [] => []
  | n, line :: rest =>
      validationLineFields file_path n line ++
      validationScan file_path (n + 1) rest

/-- `PHPValidationAnalyzer.analyze_validation_file`. -/
def analyze_validation_file (file_path content : String) :
    List PHPFieldDefinition :=
  validationScan file_path 1 (pySplitLines content)

/-- The Laravel migration filename pattern `\d{14}_.*\.php$`
(php_analyzer.py line 437). -/
def migPathRE : RE :=
  reCat (List.replicate 14 dRE ++
         [litChar false '_', RE.star dotRE, litChar false '.',
          lit false "php", RE.eol])

/-- `PHPAnalyzer._is_migration_file` (php_analyzer.py lines 431-438). -/
def is_migration_file (p : String) : Bool :=
  strContains (strToLower p) "migration" || strContains p "db/migrations" ||
  strEndsWith p "_migration.php" || reTest migPathRE p

/-- `PHPAnalyzer._is_test_file` (php_analyzer.py lines 440-448). -/
def is_test_file (p : String) : Bool :=
  strContains (strToLower p) "test" || strContains (strToLower p) "spec" ||
  strContains p "tests/" || strEndsWith p "Test.php" || strEndsWith p "Spec.php"

/-- `PHPAnalyzer._is_validation_file` (php_analyzer.py lines 450-457). -/
def is_validation_file (p : String) : Bool :=
  strContains (strToLower p) "validator" || strContains (strToLower p) "validation" ||
  strContains (strToLower p) "rule" || strContains (strToLower p) "validate"

/-- `PHPAnalyzer._map_php_type_to_sql` (php_analyzer.py lines 459-474). -/
def map_php_type_to_sql (php_type : String) (size : Option Nat) :
    String × Option Nat :=
  let t := strToLower php_type
  if t = "string" || t = "varchar" then ("VARCHAR", size)
  else if t = "char" then ("CHAR", size)
  else if t = "text" || t = "longtext" then ("TEXT", none)
  else if t = "integer" || t = "int" || t = "bigint" then ("INTEGER", none)
  else if t = "decimal" || t = "float" || t = "double" then ("DECIMAL", none)
  else ("UNKNOWN", none)

/-- A `(file_path, content)` pair, as categorized by
`PHPAnalyzer.analyze_project` from the scanned files. -/
abbrev ScannedPair := String × String

/-- File categorization of php_analyzer.py lines 284-295: migration
first, then test, then validation, else code. -/
def pairCategory (p : String) : String :=
  if is_migration_file p then "migration"
  else if is_test_file p then "test"
  else if is_validation_file p then "validation"
  else "code"

/-- `migration_fields` of `PHPAnalyzer.analyze_project` (lines
288-289 and 298, 402-407). -/
def php_migration_fields (scanned : List ScannedPair) :
    List PHPFieldDefinition :=
  (scanned.filter (fun f => pairCategory f.1 = "migration")).flatMap
    (fun f => analyze_migration_file f.1 f.2)

/-- `code_fields` of `PHPAnalyzer.analyze_project` (lines 294-295 and
299, 409-414). -/
def php_code_fields (scanned : List ScannedPair) :
    List PHPFieldDefinition :=
  (scanned.filter (fun f => pairCategory f.1 = "code")).flatMap
    (fun f => analyze_code_file f.1 f.2)

/-- `validation_fields` of `PHPAnalyzer.analyze_project` (lines 292-293
and 300, 416-421). -/
def php_validation_fields (scanned : List ScannedPair) :
    List PHPFieldDefinition :=
  (scanned.filter (fun f => pairCategory f.1 = "validation")).flatMap
    (fun f => analyze_validation_file f.1 f.2)

/-- `test_fields` of `PHPAnalyzer.analyze_project` (lines 290-291 and
301, 423-429): tests are analyzed with the code analyzer. -/
def php_test_fields (scanned : List ScannedPair) :
    List PHPFieldDefinition :=
  (scanned.filter (fun f => pairCategory f.1 = "test")).flatMap
    (fun f => analyze_code_file f.1 f.2)

/-- Migration conversion (php_analyzer.py lines 307-323): type and size
are mapped to SQL, then classified by `_assess_impact`, and the effort
comes from `_estimate_effort`. -/
def migConvert (field : PHPFieldDefinition) : CNPJField :=
  let ts := map_php_type_to_sql field.field_type field.field_size
  let ia := assess_impact ts.1 ts.2
  { file_path := field.file_path
    line_number := field.line_number
    field_name := field.field_name
    field_type := ts.1
    field_size := ts.2
    context := field.context
    project_type := "php_migration"
    impact_level := ia.1
    status := ia.2.1
    action_needed := ia.2.2
    estimated_effort := estimate_effort ia.1 }

/-- Code conversion (php_analyzer.py lines 326-339): impact, status and
effort are fixed constants, not taken from `_assess_impact`. -/
def codeConvert (field : PHPFieldDefinition) : CNPJField :=
  { file_path := field.file_path
    line_number := field.line_number
    field_name := field.field_name
    field_type := field.field_type
    field_size := field.field_size
    context := field.context
    project_type := "php_code"
    impact_level := .MEDIUM
    status := .NEEDS_ANALYSIS
    action_needed := "Revisar uso do campo CNPJ"
    estimated_effort := "2-4 horas" }

/-- Validation conversion (php_analyzer.py lines 342-355): fixed
HIGH/NEEDS_ANALYSIS and "4-8 horas". -/
def valConvert (field : PHPFieldDefinition) : CNPJField :=
  { file_path := field.file_path
    line_number := field.line_number
    field_name := field.field_name
    field_type := field.field_type
    field_size := field.field_size
    context := field.context
    project_type := "php_validation"
    impact_level := .HIGH
    status := .NEEDS_ANALYSIS
    action_needed := "Atualizar validação para CNPJ alfanumérico"
    estimated_effort := "4-8 horas" }

/-- Test conversion (php_analyzer.py lines 358-371): fixed
MEDIUM/NEEDS_ANALYSIS and "2-4 horas". -/
def testConvert (field : PHPFieldDefinition) : CNPJField :=
  { file_path := field.file_path
    line_number := field.line_number
    field_name := field.field_name
    field_type := field.field_type
    field_size := field.field_size
    context := field.context
    project_type := "php_test"
    impact_level := .MEDIUM
    status := .NEEDS_ANALYSIS
    action_needed := "Atualizar testes para CNPJ alfanumérico"
    estimated_effort := "2-4 horas" }

/-- `all_fields` as assembled by `PHPAnalyzer.analyze_project` (lines
303-371). -/
def php_all_fields (scanned : List ScannedPair) : List CNPJField :=
  (php_migration_fields scanned).map migConvert ++
  (php_code_fields scanned).map codeConvert ++
  (php_validation_fields scanned).map valConvert ++
  (php_test_fields scanned).map testConvert

/-- The overall-impact computation (php_analyzer.py lines 373-382):
when `all_fields` is empty the code evaluates `ImpactLevel.NONE`, a
member the enum does not have, so the attribute lookup fails (`none`
models the `AttributeError`). -/
def php_overall_impact (all_fields : List CNPJField) : Option ImpactLevel :=
  if all_fields.length > 0 then
    if all_fields.length > 10 then some .HIGH
    else if all_fields.length > 5 then some .MEDIUM
    else some .LOW
  else
    ImpactLevel.fromName "NONE"

/-- The dict returned by `PHPAnalyzer.analyze_project` (lines 384-400),
restricted to the fields computed from the scanned contents
(`project_name`, `project_path` and `framework_detected` echo the
filesystem and are omitted). -/
structure PHPResult where
  project_type : String
  cnpj_fields_found : List CNPJField
  validations_found : List LineHit
  frontend_masks : List LineHit
  overall_impact : String
  files_scanned : Nat
  categories : Nat × Nat × Nat × Nat
deriving DecidableEq, Repr

/-- `PHPAnalyzer.analyze_project` (php_analyzer.py lines 271-400) after
`scan_files`: categorize, analyze, convert, compute the overall impact
(raising, modelled as `none`, when the findings list is empty), and
assemble the result. -/
def php_analyze_project (scanned : List ScannedPair) : Option PHPResult :=
  let all_fields := php_all_fields scanned
  match php_overall_impact all_fields with
  | none => none
  | some imp =>
      some { project_type := "php"
             cnpj_fields_found := all_fields
             validations_found := []
             frontend_masks := []
             overall_impact := imp.value
             files_scanned := scanned.length
             categories := ((php_migration_fields scanned).length,
                            (php_code_fields scanned).length,
                            (php_validation_fields scanned).length,
                            (php_test_fields scanned).length) }

/-! ## `src/infrastructure/type_extractors/sql_extractor.py` and
`php_extractor.py`

Each extractor's `extract_type_and_size` is one long `elif` chain; a
chain of `elif`s returning on first hit is exactly `List.findSome?`
over per-branch rules, with the context-based inference as the final
fallback. -/

/-- Whether a branch just tests its pattern (`plain`) or also reads the
number captured by group 1 (`sized`). -/
inductive RuleKind where
  | plain
  | sized
deriving DecidableEq, Repr

/-- One `elif re.search(pat, line): return (tag, ...)` branch. -/
structure XRule where
  pat : RE
  tag : String
  kind : RuleKind

/-- Evaluate one branch: `some` when its pattern matches. -/
def evalRule (r : XRule) (line : String) : Option (String × Option Nat) :=
  match r.kind with
  | .plain => if reTest r.pat line then some (r.tag, none) else none
  | .sized => (reSearch r.pat line).map (fun caps => (r.tag, some (capNat caps 1)))

/-- `TYPE\s*\(\s*(\d+)\s*,\s*(\d+)\s*\)` with IGNORECASE. -/
def sized2TypeRE (name : String) : RE :=
  reCat [lit true name, RE.star sRE, litChar false '(', RE.star sRE,
         RE.group 1 (rePlus dRE), RE.star sRE, litChar false ',',
         RE.star sRE, RE.group 2 (rePlus dRE), RE.star sRE,
         litChar false ')']

/-- The branch chain of `SQLExtractor.extract_type_and_size`
(sql_extractor.py lines 31-196), in source order. -/
def sqlRuleList : List XRule :=
  [⟨sizedTypeRE "VARCHAR", "VARCHAR", .sized⟩,
   ⟨sizedTypeRE "CHAR", "CHAR", .sized⟩,
   ⟨sizedTypeRE "INT", "INT", .sized⟩,
   ⟨sizedTypeRE "INTEGER", "INTEGER", .sized⟩,
   ⟨sizedTypeRE "BIGINT", "BIGINT", .sized⟩,
   ⟨sizedTypeRE "SMALLINT", "SMALLINT", .sized⟩,
   ⟨sizedTypeRE "TINYINT", "TINYINT", .sized⟩,
   ⟨sized2TypeRE "DECIMAL", "DECIMAL", .sized⟩,
   ⟨sized2TypeRE "NUMERIC", "NUMERIC", .sized⟩,
   ⟨sized2TypeRE "FLOAT", "FLOAT", .sized⟩,
   ⟨sized2TypeRE "DOUBLE", "DOUBLE", .sized⟩,
   ⟨lit true "VARCHAR", "VARCHAR", .plain⟩,
   ⟨lit true "CHAR", "CHAR", .plain⟩,
   ⟨lit true "INT", "INT", .plain⟩,
   ⟨lit true "INTEGER", "INTEGER", .plain⟩,
   ⟨lit true "BIGINT", "BIGINT", .plain⟩,
   ⟨lit true "SMALLINT", "SMALLINT", .plain⟩,
   ⟨lit true "TINYINT", "TINYINT", .plain⟩,
   ⟨lit true "DECIMAL", "DECIMAL", .plain⟩,
   ⟨lit true "NUMERIC", "NUMERIC", .plain⟩,
   ⟨lit true "FLOAT", "FLOAT", .plain⟩,
   ⟨lit true "DOUBLE", "DOUBLE", .plain⟩,
   ⟨lit true "REAL", "REAL", .plain⟩,
   ⟨lit true "DATETIME", "DATETIME", .plain⟩,
   ⟨lit true "TIMESTAMP", "TIMESTAMP", .plain⟩,
   ⟨lit true "DATE", "DATE", .plain⟩,
   ⟨lit true "TIME", "TIME", .plain⟩,
   ⟨lit true "YEAR", "YEAR", .plain⟩,
   ⟨lit true "TEXT", "TEXT", .plain⟩,
   ⟨lit true "LONGTEXT", "LONGTEXT", .plain⟩,
   ⟨lit true "MEDIUMTEXT", "MEDIUMTEXT", .plain⟩,
   ⟨lit true "TINYTEXT", "TINYTEXT", .plain⟩,
   ⟨lit true "BLOB", "BLOB", .plain⟩,
   ⟨lit true "LONGBLOB", "LONGBLOB", .plain⟩,
   ⟨lit true "MEDIUMBLOB", "MEDIUMBLOB", .plain⟩,
   ⟨lit true "TINYBLOB", "TINYBLOB", .plain⟩,
   ⟨lit true "BOOLEAN", "BOOLEAN", .plain⟩,
   ⟨lit true "BOOL", "BOOL", .plain⟩,
   ⟨lit true "BIT", "BIT", .plain⟩,
   ⟨lit true "JSON", "JSON", .plain⟩,
   ⟨reCat [lit true "ENUM", RE.star sRE, litChar false '('], "ENUM", .plain⟩,
   ⟨reCat [lit true "SET", RE.star sRE, litChar false '('], "SET", .plain⟩,
   ⟨lit true "PRIMARY KEY", "PRIMARY_KEY", .plain⟩,
   ⟨lit true "FOREIGN KEY", "FOREIGN_KEY", .plain⟩,
   ⟨lit true "UNIQUE", "UNIQUE", .plain⟩,
   ⟨lit true "NOT NULL", "NOT_NULL", .plain⟩,
   ⟨lit true "DEFAULT", "DEFAULT", .plain⟩,
   ⟨lit true "AUTO_INCREMENT", "AUTO_INCREMENT", .plain⟩,
   ⟨lit true "INDEX", "INDEX", .plain⟩,
   ⟨lit true "KEY", "KEY", .plain⟩,
   ⟨lit true "UNIQUE KEY", "UNIQUE_KEY", .plain⟩,
   ⟨lit true "PRIMARY KEY", "PRIMARY_KEY", .plain⟩,
   ⟨lit true "CREATE TABLE", "CREATE_TABLE", .plain⟩,
   ⟨lit true "ALTER TABLE", "ALTER_TABLE", .plain⟩,
   ⟨lit true "DROP TABLE", "DROP_TABLE", .plain⟩,
   ⟨lit true "INSERT INTO", "INSERT", .plain⟩,
   ⟨lit true "UPDATE", "UPDATE", .plain⟩,
   ⟨lit true "DELETE FROM", "DELETE", .plain⟩,
   ⟨lit true "SELECT", "SELECT", .plain⟩,
   ⟨reCat [litChar false '-', litChar false '-', RE.star dotRE],
    "SQL_COMMENT", .plain⟩,
   ⟨reCat [litChar false '/', litChar false '*', RE.star dotRE,
           litChar false '*', litChar false '/'],
    "SQL_COMMENT_BLOCK", .plain⟩]

/-- The context-based inference of `SQLExtractor` (sql_extractor.py
lines 198-215), over the lowercased line. -/
def sql_context (line : String) : String × Option Nat :=
  let l := strToLower line
  if strContains l "cnpj" || strContains l "cpf" || strContains l "documento" then
    ("VARCHAR", none)
  else if strContains l "id" then ("ID_FIELD", none)
  else if strContains l "date" || strContains l "time" then ("DATE_FIELD", none)
  else if strContains l "email" then ("EMAIL_FIELD", none)
  else if strContains l "phone" || strContains l "telefone" then
    ("PHONE_FIELD", none)
  else if strContains l "amount" || strContains l "value" ||
          strContains l "total" then
    ("NUMBER_FIELD", none)
  else if strContains l "name" || strContains l "nome" then
    ("STRING_FIELD", none)
  else ("UNKNOWN", none)

/-- `SQLExtractor.extract_type_and_size` (sql_extractor.py lines
18-215). -/
def sql_extract_type_and_size (line : String) : String × Option Nat :=
  (sqlRuleList.findSome? (fun r => evalRule r line)).getD (sql_context line)

/-- `[a-zA-Z_]` -/
def identStartRE : RE := RE.pred (fun c => c.isAlpha || c == '_')
/-- `[a-zA-Z0-9_]*` -/
def identRestRE : RE := RE.star (RE.pred (fun c => c.isAlphanum || c == '_'))

/-- `\$[a-zA-Z_][a-zA-Z0-9_]*\s*=\s*`, the variable-assignment stem of
the PHP extractor's first branches. -/
def phpAssignStemRE : RE :=
  reCat [litChar false '$', identStartRE, identRestRE, RE.star sRE,
         litChar false '=', RE.star sRE]

/-- `VIS\s+\$[a-zA-Z_][a-zA-Z0-9_]*\s*;` (class-property branches). -/
def phpPropDeclRE (vis : String) : RE :=
  reCat [lit true vis, rePlus sRE, litChar false '$', identStartRE,
         identRestRE, RE.star sRE, litChar false ';']

/-- `function\s+[a-zA-Z_][a-zA-Z0-9_]*\s*\(\s*\$[a-zA-Z_][a-zA-Z0-9_]*\s*\)`,
optionally preceded by `VIS\s+` (function-parameter branches). -/
def phpFuncParamRE (vis : Option String) : RE :=
  reCat ((match vis with
          | some v => [lit true v, rePlus sRE]
          | none => []) ++
         [lit true "function", rePlus sRE, identStartRE,
          identRestRE, RE.star sRE, litChar false '(', RE.star sRE,
          litChar false '$', identStartRE, identRestRE, RE.star sRE,
          litChar false ')'])

/-- `\$table->NAME\s*\(\s*['"][^'"]*['"]\s*,\s*(\d+)\s*\)` (sized
Laravel-migration branches of the PHP extractor; note the `*` on
`[^'"]`). -/
def phpMigSizedRE (name : String) : RE :=
  reCat [litChar false '$', lit true "table->", lit true name, RE.star sRE,
         litChar false '(', RE.star sRE, quoteRE, RE.star notQuoteRE,
         quoteRE, RE.star sRE, litChar false ',', RE.star sRE,
         RE.group 1 (rePlus dRE), RE.star sRE, litChar false ')']

/-- `\$table->NAME\s*\(\s*['"][^'"]*['"]\s*\)` (plain Laravel-migration
branches of the PHP extractor). -/
def phpMigPlainRE (name : String) : RE :=
  reCat [litChar false '$', lit true "table->", lit true name, RE.star sRE,
         litChar false '(', RE.star sRE, quoteRE, RE.star notQuoteRE,
         quoteRE, RE.star sRE, litChar false ')']

/-- `\$table->decimal\s*\(\s*['"][^'"]*['"]\s*,\s*(\d+)\s*,\s*(\d+)\s*\)`. -/
def phpMigDecimalRE : RE :=
  reCat [litChar false '$', lit true "table->decimal", RE.star sRE,
         litChar false '(', RE.star sRE, quoteRE, RE.star notQuoteRE,
         quoteRE, RE.star sRE, litChar false ',', RE.star sRE,
         RE.group 1 (rePlus dRE), RE.star sRE, litChar false ',',
         RE.star sRE, RE.group 2 (rePlus dRE), RE.star sRE,
         litChar false ')']

/-- `class\s+[a-zA-Z_][a-zA-Z0-9_]*SUFFIX`. -/
def phpClassRE (suffix : String) : RE :=
  reCat [lit true "class", rePlus sRE, identStartRE, identRestRE,
         lit true suffix]

/-- The branch chain of `PHPExtractor.extract_type_and_size`
(php_extractor.py lines 31-174), in source order; every search uses
IGNORECASE. -/
def phpRuleList : List XRule :=
  [⟨reCat [phpAssignStemRE, quoteRE, RE.star notQuoteRE, quoteRE],
    "PHP_STRING", .plain⟩,
   ⟨reCat [phpAssignStemRE, rePlus dRE], "PHP_INTEGER", .plain⟩,
   ⟨reCat [phpAssignStemRE, rePlus dRE, litChar false '.', rePlus dRE],
    "PHP_FLOAT", .plain⟩,
   ⟨reCat [phpAssignStemRE, RE.alt (lit true "true") (lit true "false")],
    "PHP_BOOLEAN", .plain⟩,
   ⟨reCat [phpAssignStemRE, lit true "array", RE.star sRE, litChar false '('],
    "PHP_ARRAY", .plain⟩,
   ⟨reCat [phpAssignStemRE, litChar false '['], "PHP_ARRAY", .plain⟩,
   ⟨reCat [phpAssignStemRE, lit true "new", rePlus sRE], "PHP_OBJECT", .plain⟩,
   ⟨phpPropDeclRE "private", "PHP_PRIVATE_PROPERTY", .plain⟩,
   ⟨phpPropDeclRE "public", "PHP_PUBLIC_PROPERTY", .plain⟩,
   ⟨phpPropDeclRE "protected", "PHP_PROTECTED_PROPERTY", .plain⟩,
   ⟨phpFuncParamRE none, "PHP_FUNCTION_PARAMETER", .plain⟩,
   ⟨phpFuncParamRE (some "public"), "PHP_PUBLIC_FUNCTION_PARAMETER", .plain⟩,
   ⟨phpFuncParamRE (some "private"), "PHP_PRIVATE_FUNCTION_PARAMETER", .plain⟩,
   ⟨phpFuncParamRE (some "protected"), "PHP_PROTECTED_FUNCTION_PARAMETER", .plain⟩,
   ⟨lit true "@ORM\\Column", "DOCTRINE_COLUMN", .plain⟩,
   ⟨lit true "@ORM\\Entity", "DOCTRINE_ENTITY", .plain⟩,
   ⟨lit true "@ORM\\Table", "DOCTRINE_TABLE", .plain⟩,
   ⟨lit true "@ORM\\Id", "DOCTRINE_ID", .plain⟩,
   ⟨lit true "@ORM\\GeneratedValue", "DOCTRINE_GENERATED_VALUE", .plain⟩,
   ⟨lit true "@ORM\\ManyToOne", "DOCTRINE_MANY_TO_ONE", .plain⟩,
   ⟨lit true "@ORM\\OneToMany", "DOCTRINE_ONE_TO_MANY", .plain⟩,
   ⟨lit true "@ORM\\OneToOne", "DOCTRINE_ONE_TO_ONE", .plain⟩,
   ⟨lit true "@ORM\\ManyToMany", "DOCTRINE_MANY_TO_MANY", .plain⟩,
   ⟨lit true "@Assert\\NotBlank", "SYMFONY_NOT_BLANK", .plain⟩,
   ⟨lit true "@Assert\\Length", "SYMFONY_LENGTH", .plain⟩,
   ⟨lit true "@Assert\\Regex", "SYMFONY_REGEX", .plain⟩,
   ⟨lit true "@Assert\\Email", "SYMFONY_EMAIL", .plain⟩,
   ⟨lit true "@Assert\\NotNull", "SYMFONY_NOT_NULL", .plain⟩,
   ⟨lit true "@Assert\\Type", "SYMFONY_TYPE", .plain⟩,
   ⟨lit true "required", "LARAVEL_REQUIRED", .plain⟩,
   ⟨lit true "string", "LARAVEL_STRING", .plain⟩,
   ⟨lit true "integer", "LARAVEL_INTEGER", .plain⟩,
   ⟨lit true "numeric", "LARAVEL_NUMERIC", .plain⟩,
   ⟨lit true "email", "LARAVEL_EMAIL", .plain⟩,
   ⟨lit true "date", "LARAVEL_DATE", .plain⟩,
   ⟨lit true "boolean", "LARAVEL_BOOLEAN", .plain⟩,
   ⟨lit true "array", "LARAVEL_ARRAY", .plain⟩,
   ⟨lit true "min:", "LARAVEL_MIN", .plain⟩,
   ⟨lit true "max:", "LARAVEL_MAX", .plain⟩,
   ⟨lit true "size:", "LARAVEL_SIZE", .plain⟩,
   ⟨lit true "regex:", "LARAVEL_REGEX", .plain⟩,
   ⟨phpMigSizedRE "string", "LARAVEL_MIGRATION_STRING", .sized⟩,
   ⟨phpMigSizedRE "char", "LARAVEL_MIGRATION_CHAR", .sized⟩,
   ⟨phpMigPlainRE "integer", "LARAVEL_MIGRATION_INTEGER", .plain⟩,
   ⟨phpMigPlainRE "bigInteger", "LARAVEL_MIGRATION_BIGINTEGER", .plain⟩,
   ⟨phpMigPlainRE "text", "LARAVEL_MIGRATION_TEXT", .plain⟩,
   ⟨phpMigPlainRE "boolean", "LARAVEL_MIGRATION_BOOLEAN", .plain⟩,
   ⟨phpMigPlainRE "date", "LARAVEL_MIGRATION_DATE", .plain⟩,
   ⟨phpMigPlainRE "datetime", "LARAVEL_MIGRATION_DATETIME", .plain⟩,
   ⟨phpMigPlainRE "timestamp", "LARAVEL_MIGRATION_TIMESTAMP", .plain⟩,
   ⟨phpMigDecimalRE, "LARAVEL_MIGRATION_DECIMAL", .sized⟩,
   ⟨phpClassRE "Controller", "PHP_CONTROLLER_CLASS", .plain⟩,
   ⟨phpClassRE "Service", "PHP_SERVICE_CLASS", .plain⟩,
   ⟨phpClassRE "Repository", "PHP_REPOSITORY_CLASS", .plain⟩,
   ⟨phpClassRE "Model", "PHP_MODEL_CLASS", .plain⟩,
   ⟨phpClassRE "Entity", "PHP_ENTITY_CLASS", .plain⟩,
   ⟨reCat [lit true "namespace", rePlus sRE], "PHP_NAMESPACE", .plain⟩,
   ⟨reCat [lit true "use", rePlus sRE], "PHP_USE_STATEMENT", .plain⟩,
   ⟨reCat [litChar false '/', litChar false '/', RE.star dotRE],
    "PHP_COMMENT", .plain⟩,
   ⟨reCat [litChar false '/', litChar false '*', RE.star dotRE,
           litChar false '*', litChar false '/'],
    "PHP_COMMENT_BLOCK", .plain⟩]

/-- The context-based inference of `PHPExtractor` (php_extractor.py
lines 176-193). -/
def php_context (line : String) : String × Option Nat :=
  let l := strToLower line
  if strContains l "cnpj" || strContains l "cpf" || strContains l "documento" then
    ("PHP_STRING", none)
  else if strContains l "id" then ("PHP_ID_FIELD", none)
  else if strContains l "date" || strContains l "time" then
    ("PHP_DATE_FIELD", none)
  else if strContains l "email" then ("PHP_EMAIL_FIELD", none)
  else if strContains l "phone" || strContains l "telefone" then
    ("PHP_PHONE_FIELD", none)
  else if strContains l "amount" || strContains l "value" ||
          strContains l "total" then
    ("PHP_NUMBER_FIELD", none)
  else if strContains l "name" || strContains l "nome" then
    ("PHP_STRING_FIELD", none)
  else ("UNKNOWN", none)

/-- `PHPExtractor.extract_type_and_size` (php_extractor.py lines
18-193). -/
def php_extract_type_and_size (line : String) : String × Option Nat :=
  (phpRuleList.findSome? (fun r => evalRule r line)).getD (php_context line)

/-! ## Auxiliary specification-side definitions used by the theorems -/

/-- No domain keyword of the SQL extractor's context-based inference
occurs in the lowercased line. -/
def sql_no_keyword (line : String) : Bool :=
  let l := strToLower line
  !(strContains l "cnpj" || strContains l "cpf" || strContains l "documento" ||
    strContains l "id" || strContains l "date" || strContains l "time" ||
    strContains l "email" || strContains l "phone" || strContains l "telefone" ||
    strContains l "amount" || strContains l "value" || strContains l "total" ||
    strContains l "name" || strContains l "nome")

/-- No domain keyword of the PHP extractor's context-based inference
occurs in the lowercased line (same keyword set). -/
def php_no_keyword (line : String) : Bool :=
  let l := strToLower line
  !(strContains l "cnpj" || strContains l "cpf" || strContains l "documento" ||
    strContains l "id" || strContains l "date" || strContains l "time" ||
    strContains l "email" || strContains l "phone" || strContains l "telefone" ||
    strContains l "amount" || strContains l "value" || strContains l "total" ||
    strContains l "name" || strContains l "nome")

/-- Position of an impact level on the LOW < MEDIUM < HIGH < CRITICAL
scale. -/
def impactRank : ImpactLevel → Nat
  | .LOW => 0
  | .MEDIUM => 1
  | .HIGH => 2
  | .CRITICAL => 3

/-- Position of an effort bucket under the hours-before-days order:
"1-2 horas" < "4-8 horas" < "1-2 dias" < "2-5 dias". -/
def effortRank (s : String) : Nat :=
  if s = "1-2 horas" then 0
  else if s = "4-8 horas" then 1
  else if s = "1-2 dias" then 2
  else if s = "2-5 dias" then 3
  else 4

/-! ## Helper lemmas -/

/-- A successful branch of either extractor chain carries its own tag. -/
theorem evalRule_tag (r : XRule) (line : String) (v : String × Option Nat)
    (h : evalRule r line = some v) : v.1 = r.tag := by
  unfold evalRule at h
  cases hk : r.kind <;> rw [hk] at h
  · split at h <;> simp_all
    obtain ⟨-, hv⟩ := h
    rw [← hv]
  · rw [Option.map_eq_some'] at h
    obtain ⟨caps, -, hv⟩ := h
    rw [← hv]

/-- Membership in the assembled `all_fields` list of
`PHPAnalyzer.analyze_project` comes from one of the four conversion
loops. -/
theorem mem_php_all_fields (scanned : List ScannedPair) (f : CNPJField)
    (h : f ∈ php_all_fields scanned) :
    (∃ d, f = migConvert d) ∨ (∃ d, f = codeConvert d) ∨
    (∃ d, f = valConvert d) ∨ (∃ d, f = testConvert d) := by
  simp only [php_all_fields, List.mem_append, List.mem_map] at h
  rcases h with ((⟨d, _, hd⟩ | ⟨d, _, hd⟩) | ⟨d, _, hd⟩) | ⟨d, _, hd⟩
  · exact Or.inl ⟨d, hd.symm⟩
  · exact Or.inr (Or.inl ⟨d, hd.symm⟩)
  · exact Or.inr (Or.inr (Or.inl ⟨d, hd.symm⟩))
  · exact Or.inr (Or.inr (Or.inr ⟨d, hd.symm⟩))

/-- A field produced by `_analyze_cnpj_field` records the line number it
was given. -/
theorem analyze_cnpj_field_line_number (pt path : String) (n : Nat)
    (line : String) (f : CNPJField)
    (h : analyze_cnpj_field pt path n line = some f) : f.line_number = n := by
  unfold analyze_cnpj_field at h
  cases hf : field_patterns.findSome? (fun pat => reGroupStr pat line 1) <;>
    rw [hf] at h
  · cases h
  · cases h
    rfl

/-- A field produced by `_analyze_cnpj_field` records the file path it
was given. -/
theorem analyze_cnpj_field_file_path (pt path : String) (n : Nat)
    (line : String) (f : CNPJField)
    (h : analyze_cnpj_field pt path n line = some f) : f.file_path = path := by
  unfold analyze_cnpj_field at h
  cases hf : field_patterns.findSome? (fun pat => reGroupStr pat line 1) <;>
    rw [hf] at h
  · cases h
  · cases h
    rfl

/-- Every finding one line contributes carries that line's number. -/
theorem mem_lineFindings_line_number (pt path : String) (n : Nat)
    (line : String) (f : CNPJField) (h : f ∈ lineFindings pt path n line) :
    f.line_number = n := by
  simp only [lineFindings, List.mem_flatMap] at h
  obtain ⟨pat, _, hm⟩ := h
  split at hm
  · cases ha : analyze_cnpj_field pt path n line <;> rw [ha] at hm
    · cases hm
    · cases hm
      · exact analyze_cnpj_field_line_number pt path n line _ ha
      · cases ‹f ∈ []›
  · cases hm

/-- Every finding one line contributes carries that file's path. -/
theorem mem_lineFindings_file_path (pt path : String) (n : Nat)
    (line : String) (f : CNPJField) (h : f ∈ lineFindings pt path n line) :
    f.file_path = path := by
  simp only [lineFindings, List.mem_flatMap] at h
  obtain ⟨pat, _, hm⟩ := h
  split at hm
  · cases ha : analyze_cnpj_field pt path n line <;> rw [ha] at hm
    · cases hm
    · cases hm
      · exact analyze_cnpj_field_file_path pt path n line _ ha
      · cases ‹f ∈ []›
  · cases hm

/-- The per-line scan never emits a line number below its counter. -/
theorem mem_scanLines_le (pt path : String) :
    ∀ (k : Nat) (ls : List String) (f : CNPJField),
      f ∈ scanLines pt path k ls → k ≤ f.line_number := by
  intro k ls
  induction ls generalizing k with
  | nil => intro f h; cases h
  | cons line rest ih =>
      intro f h
      rw [scanLines, List.mem_append] at h
      rcases h with h | h
      · exact (mem_lineFindings_line_number pt path k line f h).ge
      · exact Nat.le_of_succ_le (ih (k + 1) f h)

/-- The per-line scan always emits the path it was given. -/
theorem mem_scanLines_file_path (pt path : String) :
    ∀ (k : Nat) (ls : List String) (f : CNPJField),
      f ∈ scanLines pt path k ls → f.file_path = path := by
  intro k ls
  induction ls generalizing k with
  | nil => intro f h; cases h
  | cons line rest ih =>
      intro f h
      rw [scanLines, List.mem_append] at h
      rcases h with h | h
      · exact mem_lineFindings_file_path pt path k line f h
      · exact ih (k + 1) f h

/-- A list all of whose elements are equal is pairwise `≤`. -/
theorem pairwise_le_of_all_eq (c : Nat) :
    ∀ (l : List Nat), (∀ x ∈ l, x = c) → l.Pairwise (· ≤ ·) := by
  intro l
  induction l with
  | nil => intro _; exact List.Pairwise.nil
  | cons x xs ih =>
      intro h
      refine List.Pairwise.cons (fun y hy => ?_) (ih fun y hy => h y (.tail _ hy))
      rw [h x (.head xs), h y (.tail _ hy)]

/-- The line numbers of one file's scan are non-decreasing. -/
theorem scanLines_pairwise_le (pt path : String) :
    ∀ (k : Nat) (ls : List String),
      ((scanLines pt path k ls).map CNPJField.line_number).Pairwise (· ≤ ·) := by
  intro k ls
  induction ls generalizing k with
  | nil => exact List.Pairwise.nil
  | cons line rest ih =>
      rw [scanLines, List.map_append, List.pairwise_append]
      refine ⟨?_, ih (k + 1), ?_⟩
      · refine pairwise_le_of_all_eq k _ (fun x hx => ?_)
        obtain ⟨f, hf, rfl⟩ := List.mem_map.mp hx
        exact mem_lineFindings_line_number pt path k line f hf
      · intro a ha b hb
        obtain ⟨f, hf, rfl⟩ := List.mem_map.mp ha
        obtain ⟨g, hg, rfl⟩ := List.mem_map.mp hb
        have h1 := mem_lineFindings_line_number pt path k line f hf
        have h2 := mem_scanLines_le pt path (k + 1) rest g hg
        omega

/-- A scanned file produced by `scan_files` stems from a candidate
whose read succeeded with exactly that content. -/
theorem mem_scan_files (fs : List FSFile)
    (exts skips incs : List String) (sf : ScannedFile)
    (h : sf ∈ scan_files fs exts skips incs) :
    ∃ e ∈ fs, e.path = sf.path ∧ e.read = Except.ok sf.content := by
  simp only [scan_files, List.mem_flatMap, List.mem_filterMap] at h
  obtain ⟨ext, _, e, he, hsome⟩ := h
  refine ⟨e, he, ?_⟩
  split at hsome
  · split at hsome
    · cases hsome
    · cases hr : e.read <;> rw [hr] at hsome
      · cases hsome
      · cases hsome
        exact ⟨rfl, hr ▸ rfl⟩
  · cases hsome

/-! ## Claims -/

/-- Claim C1, counterexample: the claim says the classifier maps
(VARCHAR, 14) to LOW/COMPATIBLE, but `_assess_impact` returns
MEDIUM/ATTENTION there (only sizes ≥ 18 reach the LOW/COMPATIBLE
branch). -/
theorem C1_counterexample :
    ((assess_impact "VARCHAR" (some 14)).1,
     (assess_impact "VARCHAR" (some 14)).2.1) =
      (ImpactLevel.MEDIUM, Status.ATTENTION) ∧
    ((assess_impact "VARCHAR" (some 14)).1,
     (assess_impact "VARCHAR" (some 14)).2.1) ≠
      (ImpactLevel.LOW, Status.COMPATIBLE) := by
  constructor
  · decide
  · decide

/-- Claim C1, amended: on the boundary set {13, 14, 17, 18, 25, null},
`_assess_impact` yields CRITICAL/INCOMPATIBLE at 13,
MEDIUM/ATTENTION at 14 and 17, LOW/COMPATIBLE at 18 and 25, for both
VARCHAR and CHAR; a null size yields MEDIUM/NEEDS_ANALYSIS for VARCHAR
but LOW/COMPATIBLE for CHAR. -/
theorem C1_assess_impact_boundary_table :
    (∀ t ∈ ["VARCHAR", "CHAR"],
      ((assess_impact t (some 13)).1, (assess_impact t (some 13)).2.1) =
        (ImpactLevel.CRITICAL, Status.INCOMPATIBLE) ∧
      ((assess_impact t (some 14)).1, (assess_impact t (some 14)).2.1) =
        (ImpactLevel.MEDIUM, Status.ATTENTION) ∧
      ((assess_impact t (some 17)).1, (assess_impact t (some 17)).2.1) =
        (ImpactLevel.MEDIUM, Status.ATTENTION) ∧
      ((assess_impact t (some 18)).1, (assess_impact t (some 18)).2.1) =
        (ImpactLevel.LOW, Status.COMPATIBLE) ∧
      ((assess_impact t (some 25)).1, (assess_impact t (some 25)).2.1) =
        (ImpactLevel.LOW, Status.COMPATIBLE)) ∧
    ((assess_impact "VARCHAR" none).1, (assess_impact "VARCHAR" none).2.1) =
      (ImpactLevel.MEDIUM, Status.NEEDS_ANALYSIS) ∧
    ((assess_impact "CHAR" none).1, (assess_impact "CHAR" none).2.1) =
      (ImpactLevel.LOW, Status.COMPATIBLE) := by
  refine ⟨?_, by decide, by decide⟩
  intro t ht
  fin_cases ht <;> refine ⟨by decide, by decide, by decide, by decide, by decide⟩

/-- Claim C1, amended, witness: the amended table instantiated at
VARCHAR. -/
theorem C1_assess_impact_boundary_table_witness :
    ((assess_impact "VARCHAR" (some 13)).1,
     (assess_impact "VARCHAR" (some 13)).2.1) =
      (ImpactLevel.CRITICAL, Status.INCOMPATIBLE) :=
  (C1_assess_impact_boundary_table.1 "VARCHAR" (by decide)).1

/-- Claim C2, counterexample: `create_analyzer` does not fail for the
unregistered tag "unknown"; it silently returns the generic PHP
analyzer (it is a total function with no error channel at all). -/
theorem C2_counterexample :
    analyzers_registry.lookup "unknown" = none ∧
    create_analyzer "unknown" = ("PHPAnalyzer", "php") := by
  constructor
  · decide
  · decide

/-- Claim C2, amended: for every tag missing from the registry,
`create_analyzer` never raises; it falls back by prefix (php/ui/nest/etl)
and otherwise returns the generic PHP analyzer. -/
theorem C2_create_analyzer_total_fallback (t : String)
    (h : analyzers_registry.lookup t = none) :
    create_analyzer t =
      (if strStartsWith t "php" then ("PHPAnalyzer", "php")
       else if strStartsWith t "ui" then ("UIAnalyzer", "ui")
       else if strStartsWith t "nest" then ("NestAnalyzer", "")
       else if strStartsWith t "etl" then ("ETLAnalyzer", "")
       else ("PHPAnalyzer", "php")) := by
  unfold create_analyzer
  rw [h]

/-- Claim C2, amended, witness: the unregistered tag "gradle" gets the
generic PHP analyzer. -/
theorem C2_create_analyzer_total_fallback_witness :
    create_analyzer "gradle" = ("PHPAnalyzer", "php") :=
  (C2_create_analyzer_total_fallback "gradle" (by decide)).trans (by decide)

/-- Claim C5, code bug: the spec's end-to-end scenario expects the line
"cnpj VARCHAR(11)" to yield one CRITICAL/INCOMPATIBLE Finding, and the
detection catalog does hit the line, but every field-name capture
pattern of `_analyze_cnpj_field` demands a word character before
"cnpj" (`\w+cnpj\w*` etc.), so the bare column name extracts nothing
and the scanner emits zero Findings. -/
theorem C5_bare_cnpj_line_yields_no_finding :
    (field_names_patterns.any
      (fun p => reTest (lit true p) "cnpj VARCHAR(11)")) = true ∧
    analyze_cnpj_field "php" "schema.sql" 1 "cnpj VARCHAR(11)" = none ∧
    find_cnpj_fields "php"
      [{ path := "schema.sql", content := "cnpj VARCHAR(11)",
         ext := ".sql" }] = [] := by
  refine ⟨by decide, by decide, by decide⟩

/-- Claim C8: a PHP migration file whose content is
"$table->string('cnpj', 18);" produces exactly one Finding, with
field_type VARCHAR (the PHP `string` method mapped to SQL), size 18,
impact LOW and status COMPATIBLE. -/
theorem C8_laravel_string_cnpj_18 :
    php_all_fields
      [("db/migrations/create_table.php", "$table->string(\x27cnpj\x27, 18);")] =
    [{ file_path := "db/migrations/create_table.php"
       line_number := 1
       field_name := "cnpj"
       field_type := "VARCHAR"
       field_size := some 18
       context := "$table->string(\x27cnpj\x27, 18);"
       project_type := "php_migration"
       impact_level := .LOW
       status := .COMPATIBLE
       action_needed := "Nenhuma alteração necessária"
       estimated_effort := "1-2 horas" }] := by
  decide

/-- Claim C9, counterexample: the single line "nr_documento" matches two
field-name patterns (`documento` and `nr_documento`) and the loop does
not break, so one line yields two Findings with the same line number;
line numbers within one file's findings are not strictly increasing. -/
theorem C9_counterexample :
    (find_cnpj_fields "php"
      [{ path := "a.sql", content := "nr_documento", ext := ".sql" }]).map
        CNPJField.line_number = [1, 1] ∧
    ¬ ((find_cnpj_fields "php"
      [{ path := "a.sql", content := "nr_documento", ext := ".sql" }]).map
        CNPJField.line_number).Pairwise (· < ·) := by
  constructor
  · decide
  · intro h
    have h11 : ((find_cnpj_fields "php"
      [{ path := "a.sql", content := "nr_documento", ext := ".sql" }]).map
        CNPJField.line_number) = [1, 1] := by decide
    rw [h11] at h
    cases h with
    | cons hrel _ => exact absurd (hrel 1 (.head _)) (by decide)

/-- Claim C9, amended: within the findings produced for one file by
`find_cnpj_fields`, line numbers are non-decreasing; a single line can
emit one Finding per matching field-name pattern, so equal consecutive
line numbers (not strict increase) are possible. -/
theorem C9_line_numbers_monotone (pt : String) (file : ScannedFile) :
    ((find_cnpj_fields pt [file]).map CNPJField.line_number).Pairwise
      (· ≤ ·) := by
  have hf : find_cnpj_fields pt [file] =
      scanLines pt file.path 1 (pySplitLines file.content) := by
    simp [find_cnpj_fields]
  rw [hf]
  exact scanLines_pairwise_le pt file.path 1 (pySplitLines file.content)

/-- Claim C10: the `ImpactLevel` enum has no member NONE, so when a PHP
project scan assembles an empty findings list, the overall-impact
computation of `PHPAnalyzer.analyze_project` fails with an
AttributeError (modelled as `none`) instead of returning a result; the
branch is reachable on a benign clean project. -/
theorem C10_impactlevel_none_attribute_error :
    ImpactLevel.fromName "NONE" = none ∧
    ∀ scanned : List ScannedPair, php_all_fields scanned = [] →
      php_analyze_project scanned = none := by
  refine ⟨by decide, ?_⟩
  intro scanned h
  have hni : php_overall_impact [] = none := by decide
  simp only [php_analyze_project, h, hni]

/-- Claim C10, witness: a project with one harmless code file produces
no findings, and the analyzer indeed raises (returns no result). -/
theorem C10_impactlevel_none_attribute_error_witness :
    php_analyze_project [("src/App.php", "hello")] = none :=
  C10_impactlevel_none_attribute_error.2 [("src/App.php", "hello")] (by decide)

/-- Claim C3, counterexample: with two readable files and one
unreadable file all matching the extension, `scan_files` silently drops
the unreadable one, so `total_files_scanned` is 2, not the 3 attempted
files the claim asserts. -/
theorem C3_counterexample :
    (base_analyze_project ⟨"php", [".sql"], []⟩
      [{ path := "a.sql", read := .ok "x" },
       { path := "b.sql", read := .ok "y" },
       { path := "c.sql", read := .error () }] [] []).total_files_scanned = 2 ∧
    (2 : Nat) ≠ 3 ∧
    (base_analyze_project ⟨"php", [".sql"], []⟩
      [{ path := "a.sql", read := .ok "x" },
       { path := "b.sql", read := .ok "y" },
       { path := "c.sql", read := .error () }] [] []).cnpj_fields_found = [] := by
  refine ⟨by decide, by decide, by decide⟩

/-- Claim C3, amended: the scan is total (an unreadable file never
aborts it), every Finding stems from a file whose read succeeded, and
`total_files_scanned` counts exactly the successfully read files, not
all attempted ones. -/
theorem C3_scan_resilience (cfg : AnalyzerConfig) (fs : List FSFile)
    (fsk finc : List String) (f : CNPJField)
    (h : f ∈ (base_analyze_project cfg fs fsk finc).cnpj_fields_found) :
    (base_analyze_project cfg fs fsk finc).total_files_scanned =
      (scan_files fs cfg.extensions (cfg.skip_patterns ++ fsk) finc).length ∧
    ∃ sf ∈ scan_files fs cfg.extensions (cfg.skip_patterns ++ fsk) finc,
      f.file_path = sf.path ∧
      ∃ e ∈ fs, e.path = sf.path ∧ e.read = Except.ok sf.content := by
  refine ⟨rfl, ?_⟩
  simp only [base_analyze_project, find_cnpj_fields, List.mem_flatMap] at h
  obtain ⟨sf, hsf, hmem⟩ := h
  exact ⟨sf, hsf, mem_scanLines_file_path _ _ _ _ _ hmem,
         mem_scan_files _ _ _ _ _ hsf⟩

/-- Claim C3, amended, witness: one readable file containing "x_cnpj"
yields a Finding traced back to a successful read. -/
theorem C3_scan_resilience_witness :
    (base_analyze_project ⟨"php", [".sql"], []⟩
      [{ path := "a.sql", read := .ok "x_cnpj" }] [] []).total_files_scanned =
      (scan_files [{ path := "a.sql", read := .ok "x_cnpj" }] [".sql"] [] []).length ∧
    ∃ sf ∈ scan_files [{ path := "a.sql", read := .ok "x_cnpj" }] [".sql"] [] [],
      ({ file_path := "a.sql", line_number := 1, field_name := "x_cnpj",
         field_type := "UNKNOWN", field_size := none, context := "x_cnpj",
         project_type := "php", impact_level := .MEDIUM,
         status := .NEEDS_ANALYSIS,
         action_needed := "Análise manual necessária",
         estimated_effort := "4-8 horas" } : CNPJField).file_path = sf.path ∧
      ∃ e ∈ [({ path := "a.sql", read := .ok "x_cnpj" } : FSFile)],
        e.path = sf.path ∧ e.read = Except.ok sf.content :=
  C3_scan_resilience ⟨"php", [".sql"], []⟩
    [{ path := "a.sql", read := .ok "x_cnpj" }] [] [] _ (by decide)

/-- Claim C4, counterexample: a validation-category file yields a
Finding whose (impact_level, status) is HIGH/NEEDS_ANALYSIS, assigned
by the validation conversion loop, while `_assess_impact` on the same
(field_type, field_size) returns MEDIUM/NEEDS_ANALYSIS — the pair is
not the classifier's output. -/
theorem C4_counterexample :
    php_all_fields [("app/rules.php", "\x27cnpj\x27")] =
      [{ file_path := "app/rules.php", line_number := 1,
         field_name := "validation_rule_1", field_type := "VALIDATION_RULE",
         field_size := none, context := "\x27cnpj\x27",
         project_type := "php_validation", impact_level := .HIGH,
         status := .NEEDS_ANALYSIS,
         action_needed := "Atualizar validação para CNPJ alfanumérico",
         estimated_effort := "4-8 horas" }] ∧
    ((assess_impact "VALIDATION_RULE" none).1,
     (assess_impact "VALIDATION_RULE" none).2.1) =
      (ImpactLevel.MEDIUM, Status.NEEDS_ANALYSIS) ∧
    (ImpactLevel.HIGH, Status.NEEDS_ANALYSIS) ≠
      (ImpactLevel.MEDIUM, Status.NEEDS_ANALYSIS) := by
  refine ⟨by decide, by decide, by decide⟩

/-- Claim C4, amended: only migration findings take (impact_level,
status, action_needed) from `_assess_impact`; PHP code and test
findings are fixed at MEDIUM/NEEDS_ANALYSIS and validation findings at
HIGH/NEEDS_ANALYSIS, independently of the classifier. -/
theorem C4_impact_status_assignment (scanned : List ScannedPair)
    (f : CNPJField) (h : f ∈ php_all_fields scanned) :
    (f.project_type = "php_migration" →
      (f.impact_level, f.status, f.action_needed) =
        assess_impact f.field_type f.field_size) ∧
    ((f.project_type = "php_code" ∨ f.project_type = "php_test") →
      (f.impact_level, f.status) =
        (ImpactLevel.MEDIUM, Status.NEEDS_ANALYSIS)) ∧
    (f.project_type = "php_validation" →
      (f.impact_level, f.status) =
        (ImpactLevel.HIGH, Status.NEEDS_ANALYSIS)) := by
  rcases mem_php_all_fields scanned f h with
    ⟨d, rfl⟩ | ⟨d, rfl⟩ | ⟨d, rfl⟩ | ⟨d, rfl⟩
  · refine ⟨fun _ => rfl, fun hc => ?_,
      fun hv => absurd hv (by decide : ¬("php_migration" : String) = "php_validation")⟩
    rcases hc with hc | hc
    · exact absurd hc (by decide : ¬("php_migration" : String) = "php_code")
    · exact absurd hc (by decide : ¬("php_migration" : String) = "php_test")
  · exact ⟨fun hm => absurd hm (by decide : ¬("php_code" : String) = "php_migration"),
           fun _ => rfl,
           fun hv => absurd hv (by decide : ¬("php_code" : String) = "php_validation")⟩
  · refine ⟨fun hm => absurd hm (by decide : ¬("php_validation" : String) = "php_migration"),
      fun hc => ?_, fun _ => rfl⟩
    rcases hc with hc | hc
    · exact absurd hc (by decide : ¬("php_validation" : String) = "php_code")
    · exact absurd hc (by decide : ¬("php_validation" : String) = "php_test")
  · exact ⟨fun hm => absurd hm (by decide : ¬("php_test" : String) = "php_migration"),
           fun _ => rfl,
           fun hv => absurd hv (by decide : ¬("php_test" : String) = "php_validation")⟩

/-- Claim C4, amended, witness: a concrete migration Finding does take
its triple from `_assess_impact`, and a concrete validation Finding is
fixed at HIGH/NEEDS_ANALYSIS. -/
theorem C4_impact_status_assignment_witness :
    (({ file_path := "x_migration.php", line_number := 1,
        field_name := "cnpj", field_type := "INTEGER", field_size := none,
        context := "$table->integer(\x27cnpj\x27);",
        project_type := "php_migration", impact_level := .HIGH,
        status := .INCOMPATIBLE,
        action_needed := "Alterar tipo para VARCHAR(18)",
        estimated_effort := "1-2 dias" } : CNPJField).impact_level,
     ({ file_path := "x_migration.php", line_number := 1,
        field_name := "cnpj", field_type := "INTEGER", field_size := none,
        context := "$table->integer(\x27cnpj\x27);",
        project_type := "php_migration", impact_level := .HIGH,
        status := .INCOMPATIBLE,
        action_needed := "Alterar tipo para VARCHAR(18)",
        estimated_effort := "1-2 dias" } : CNPJField).status,
     ({ file_path := "x_migration.php", line_number := 1,
        field_name := "cnpj", field_type := "INTEGER", field_size := none,
        context := "$table->integer(\x27cnpj\x27);",
        project_type := "php_migration", impact_level := .HIGH,
        status := .INCOMPATIBLE,
        action_needed := "Alterar tipo para VARCHAR(18)",
        estimated_effort := "1-2 dias" } : CNPJField).action_needed) =
      assess_impact "INTEGER" none :=
  (C4_impact_status_assignment
    [("x_migration.php", "$table->integer(\x27cnpj\x27);")] _
    (by decide)).1 (by decide)

/-- Claim C7, counterexample: a PHP code-category Finding is emitted
with impact MEDIUM but effort "2-4 horas", while the effort bucket of
MEDIUM is "4-8 horas" — so `estimated_effort` is not a function of
`impact_level` across emitted Findings. -/
theorem C7_counterexample :
    php_all_fields [("src/A.php", "$cnpj = 1;")] =
      [{ file_path := "src/A.php", line_number := 1, field_name := "cnpj",
         field_type := "VARIABLE", field_size := none,
         context := "$cnpj = 1;", project_type := "php_code",
         impact_level := .MEDIUM, status := .NEEDS_ANALYSIS,
         action_needed := "Revisar uso do campo CNPJ",
         estimated_effort := "2-4 horas" }] ∧
    estimate_effort ImpactLevel.MEDIUM = "4-8 horas" ∧
    ("2-4 horas" : String) ≠ "4-8 horas" := by
  refine ⟨by decide, by decide, by decide⟩

/-- Claim C7, amended: `_estimate_effort` itself is a total function of
the impact level whose buckets strictly increase along
LOW < MEDIUM < HIGH < CRITICAL under the hours-before-days order, and
migration findings do use it; but the PHP code/validation/test
conversion loops hand-set different effort strings, so the property
fails for the other categories. -/
theorem C7_effort_monotone_and_migration_bucket :
    (∀ a b : ImpactLevel, impactRank a < impactRank b →
      effortRank (estimate_effort a) < effortRank (estimate_effort b)) ∧
    (∀ (scanned : List ScannedPair) (f : CNPJField),
      f ∈ php_all_fields scanned → f.project_type = "php_migration" →
      f.estimated_effort = estimate_effort f.impact_level) := by
  constructor
  · intro a b
    cases a <;> cases b <;> decide
  · intro scanned f h hm
    rcases mem_php_all_fields scanned f h with
      ⟨d, rfl⟩ | ⟨d, rfl⟩ | ⟨d, rfl⟩ | ⟨d, rfl⟩
    · rfl
    · exact absurd hm (by decide : ¬("php_code" : String) = "php_migration")
    · exact absurd hm (by decide : ¬("php_validation" : String) = "php_migration")
    · exact absurd hm (by decide : ¬("php_test" : String) = "php_migration")

/-- Claim C7, amended, witness: LOW's bucket sits strictly below
MEDIUM's, and a concrete migration Finding's effort equals its impact
level's bucket. -/
theorem C7_effort_monotone_and_migration_bucket_witness :
    effortRank (estimate_effort ImpactLevel.LOW) <
      effortRank (estimate_effort ImpactLevel.MEDIUM) ∧
    ({ file_path := "x_migration.php", line_number := 1,
       field_name := "cnpj", field_type := "INTEGER", field_size := none,
       context := "$table->integer(\x27cnpj\x27);",
       project_type := "php_migration", impact_level := .HIGH,
       status := .INCOMPATIBLE,
       action_needed := "Alterar tipo para VARCHAR(18)",
       estimated_effort := "1-2 dias" } : CNPJField).estimated_effort =
      estimate_effort ImpactLevel.HIGH :=
  ⟨C7_effort_monotone_and_migration_bucket.1 .LOW .MEDIUM (by decide),
   C7_effort_monotone_and_migration_bucket.2
     [("x_migration.php", "$table->integer(\x27cnpj\x27);")] _
     (by decide) (by decide)⟩

/-- The SQL context fallback answers UNKNOWN exactly when none of its
domain keywords occurs in the line. -/
theorem sql_context_unknown_iff (line : String) :
    sql_context line = ("UNKNOWN", none) ↔ sql_no_keyword line = true := by
  simp only [sql_context, sql_no_keyword]
  split_ifs <;> simp_all <;> (intros; simp_all)

/-- The PHP context fallback answers UNKNOWN exactly when none of its
domain keywords occurs in the line. -/
theorem php_context_unknown_iff (line : String) :
    php_context line = ("UNKNOWN", none) ↔ php_no_keyword line = true := by
  simp only [php_context, php_no_keyword]
  split_ifs <;> simp_all <;> (intros; simp_all)

/-- No branch of the SQL extractor chain carries the UNKNOWN tag. -/
theorem sqlRuleList_tags_not_unknown :
    ∀ r ∈ sqlRuleList, r.tag ≠ "UNKNOWN" := by
  intro r hr
  exact bne_iff_ne.mp (List.all_eq_true.mp
    (by decide : sqlRuleList.all (fun r => r.tag != "UNKNOWN") = true) r hr)

/-- No branch of the PHP extractor chain carries the UNKNOWN tag. -/
theorem phpRuleList_tags_not_unknown :
    ∀ r ∈ phpRuleList, r.tag ≠ "UNKNOWN" := by
  intro r hr
  exact bne_iff_ne.mp (List.all_eq_true.mp
    (by decide : phpRuleList.all (fun r => r.tag != "UNKNOWN") = true) r hr)

/-- Claim C6: on every input string both extractors return a
`(type_tag, size)` pair (they are total functions, never raising), and
the result is `("UNKNOWN", null)` exactly when no branch of the
pattern chain matches and no context-fallback domain keyword occurs in
the line. -/
theorem C6_extract_unknown_iff_no_match (line : String) :
    (sql_extract_type_and_size line = ("UNKNOWN", none) ↔
      ((∀ r ∈ sqlRuleList, evalRule r line = none) ∧
       sql_no_keyword line = true)) ∧
    (php_extract_type_and_size line = ("UNKNOWN", none) ↔
      ((∀ r ∈ phpRuleList, evalRule r line = none) ∧
       php_no_keyword line = true)) := by
  constructor
  · unfold sql_extract_type_and_size
    cases hfs : sqlRuleList.findSome? (fun r => evalRule r line) with
    | none =>
        rw [Option.getD_none]
        have hall := List.findSome?_eq_none_iff.mp hfs
        exact ⟨fun hctx => ⟨hall, (sql_context_unknown_iff line).mp hctx⟩,
               fun hk => (sql_context_unknown_iff line).mpr hk.2⟩
    | some v =>
        rw [Option.getD_some]
        obtain ⟨r, hr, hv⟩ := List.exists_of_findSome?_eq_some hfs
        have htag := evalRule_tag r line v hv
        constructor
        · intro heq
          exact absurd (htag ▸ congrArg Prod.fst heq)
            (sqlRuleList_tags_not_unknown r hr)
        · rintro ⟨hall2, -⟩
          exact Option.noConfusion ((hall2 r hr).symm.trans hv)
  · unfold php_extract_type_and_size
    cases hfs : phpRuleList.findSome? (fun r => evalRule r line) with
    | none =>
        rw [Option.getD_none]
        have hall := List.findSome?_eq_none_iff.mp hfs
        exact ⟨fun hctx => ⟨hall, (php_context_unknown_iff line).mp hctx⟩,
               fun hk => (php_context_unknown_iff line).mpr hk.2⟩
    | some v =>
        rw [Option.getD_some]
        obtain ⟨r, hr, hv⟩ := List.exists_of_findSome?_eq_some hfs
        have htag := evalRule_tag r line v hv
        constructor
        · intro heq
          exact absurd (htag ▸ congrArg Prod.fst heq)
            (phpRuleList_tags_not_unknown r hr)
        · rintro ⟨hall2, -⟩
          exact Option.noConfusion ((hall2 r hr).symm.trans hv)

/-- Claim C6, witness: on the empty string no branch matches and no
keyword occurs, so both extractors answer `("UNKNOWN", null)` without
raising. -/
theorem C6_extract_unknown_iff_no_match_witness :
    sql_extract_type_and_size "" = ("UNKNOWN", none) ∧
    php_extract_type_and_size "" = ("UNKNOWN", none) :=
  ⟨(C6_extract_unknown_iff_no_match "").1.mpr ⟨by decide, by decide⟩,
   (C6_extract_unknown_iff_no_match "").2.mpr ⟨by decide, by decide⟩⟩

end CnpjAnalyzer
